import Mathlib

/-!
Verification of the HireIndex resume-analysis pipeline.

Shallow embedding of the core pipeline:
- `fillSectionDefaults`, `analyzeResumeWithGemini`, `isResumeDocument`
  from `src/server/gemini.ts`;
- the `POST /api/resume/analyze` orchestrator and the
  `GET /api/resume/analysis/:id` handler from the Express routes file.

External collaborators (the Gemini HTTP service, text extraction, the
database-backed storage, the SHA-256 hash) are modelled as explicit
parameters: each call site receives the outcome of the collaborator call
as a value, mirroring exactly how the source consumes it.
-/

namespace HireIndex

/-- The five-field feedback record of `ResumeAnalysisResult` (gemini.ts). -/
structure Feedback where
  keywords : String
  experience : String
  skills : String
  education : String
  formatting : String
deriving Repr, DecidableEq

/-- Feedback record as it comes out of `JSON.parse` of the model response:
every field may be absent (`none`) or present (possibly the empty string). -/
structure UpstreamFeedback where
  keywords : Option String
  experience : Option String
  skills : Option String
  education : Option String
  formatting : Option String
deriving Repr, DecidableEq

/-- Result of `JSON.parse(resultText)` in `analyzeResumeWithGemini`:
any of the declared fields may be missing from the parsed object, which
TypeScript's unchecked cast silently permits. -/
structure UpstreamResult where
  overallScore : Option Int
  keywordsScore : Option Int
  experienceScore : Option Int
  skillsScore : Option Int
  educationScore : Option Int
  formattingScore : Option Int
  feedback : Option UpstreamFeedback
  improvementSuggestions : Option (List String)
deriving Repr, DecidableEq

/-- The value the analyzer hands to the route: feedback and suggestions are
always materialised by `fillSectionDefaults`, but the six numeric fields are
whatever the spread `...result` carried over (possibly absent). -/
structure NormalizedResult where
  overallScore : Option Int
  keywordsScore : Option Int
  experienceScore : Option Int
  skillsScore : Option Int
  educationScore : Option Int
  formattingScore : Option Int
  feedback : Feedback
  improvementSuggestions : List String
deriving Repr, DecidableEq

/-- Whitespace test used by the `trim` model (ASCII whitespace; JavaScript
`trim` strips a slightly larger Unicode class, which never matters for the
tokens compared here). -/
def jsWhitespace (c : Char) : Bool :=
  c = ' ' || c = '\t' || c = '\r' || c = '\n'

/-- Model of JavaScript `String.prototype.trim`: drop whitespace from both
ends. -/
def jsTrim (s : String) : String :=
  String.mk ((((s.toList.dropWhile jsWhitespace).reverse).dropWhile jsWhitespace).reverse)

/-- Model of JavaScript `String.prototype.toLowerCase` (ASCII case fold,
enough for the `yes`/`no` token comparison the source performs). -/
def jsToLower (s : String) : String :=
  String.mk (s.toList.map Char.toLower)

/-- Model of JavaScript `String.prototype.startsWith`. -/
def jsStartsWith (s pre : String) : Bool :=
  pre.toList.isPrefixOf s.toList

/-- JavaScript `x || d` for a string-valued optional-chain access:
absent (`undefined`) and the empty string are falsy and give the default. -/
def jsOrString (x : Option String) (d : String) : String :=
  match x with
  | some s => if s = "" then d else s
  | none => d

/-- Embedding of `fillSectionDefaults` (gemini.ts lines 102-116): the spread
`...result` keeps the six numeric fields untouched, each feedback field is
`result.feedback?.FIELD || "No feedback provided."`, and the suggestions are
kept only when they form a non-empty array. -/
def fillSectionDefaults (result : UpstreamResult) : NormalizedResult :=
  { overallScore := result.overallScore
    keywordsScore := result.keywordsScore
    experienceScore := result.experienceScore
    skillsScore := result.skillsScore
    educationScore := result.educationScore
    formattingScore := result.formattingScore
    feedback :=
      { keywords := jsOrString (result.feedback.bind (·.keywords)) "No feedback provided."
        experience := jsOrString (result.feedback.bind (·.experience)) "No feedback provided."
        skills := jsOrString (result.feedback.bind (·.skills)) "No feedback provided."
        education := jsOrString (result.feedback.bind (·.education)) "No feedback provided."
        formatting := jsOrString (result.feedback.bind (·.formatting)) "No feedback provided." }
    improvementSuggestions :=
      match result.improvementSuggestions with
      | some (s :: rest) => s :: rest
      | _ => ["No suggestions provided."] }

/-- The JSON body of a Gemini reply: the optional chain
`data?.candidates?.[0]?.content?.parts?.[0]?.text` either reaches a string or
is `undefined`; we record just that reachable text. -/
structure GeminiResponse where
  text : Option String
deriving Repr, DecidableEq

/-- Outcome of one `fetch` round-trip to the Gemini endpoint, at the
granularity the source distinguishes: the fetch throws, the HTTP status is
not ok, `response.json()` throws, or a parsed body is obtained. -/
inductive CallOutcome where
  | networkError
  | httpError (status : Nat)
  | jsonError
  | ok (resp : GeminiResponse)
deriving Repr, DecidableEq

/-- Embedding of `isResumeDocument` (gemini.ts lines 49-99) as the boolean it
produces. No credential, a fetch exception, a non-ok status, or a body-parse
exception all yield `true`; a parsed body yields
`(text || "").trim().toLowerCase().startsWith('yes')`. -/
def isResumeDocument (apiKeyConfigured : Bool) (text : String)
    (outcome : CallOutcome) : Bool :=
  if !apiKeyConfigured then true
  else
    match outcome with
    | .networkError => true
    | .httpError _ => true
    | .jsonError => true
    | .ok resp => jsStartsWith (jsToLower (jsTrim (resp.text.getD ""))) "yes"

/-- Embedding of `isResumeDocument` keeping the exception structure explicit:
every potentially-throwing step of the source sits inside a `try` whose
`catch` returns `true`, so every branch of this function is `Except.ok`.
The `text` argument only feeds the prompt and cannot throw. -/
def isResumeDocumentE (apiKeyConfigured : Bool) (text : String)
    (outcome : CallOutcome) : Except String Bool :=
  if !apiKeyConfigured then .ok true
  else
    match outcome with
    | .networkError => .ok true     -- catch around fetch: return true
    | .httpError _ => .ok true      -- !response.ok: return true
    | .jsonError => .ok true        -- catch around response.json(): return true
    | .ok resp => .ok (jsStartsWith (jsToLower (jsTrim (resp.text.getD ""))) "yes")

/-- Outcome of the analysis `fetch` round-trip plus the `JSON.parse` of the
code-fence-stripped response text, at the granularity the source
distinguishes. -/
inductive AnalyzeOutcome where
  | networkError
  | httpError (status : Nat)
  | bodyJsonError
  | resultParseError
  | parsed (result : UpstreamResult)
deriving Repr, DecidableEq

/-- The typed errors `analyzeResumeWithGemini` can throw, one per `throw new
Error(...)` site in the source. -/
inductive AnalyzeError where
  | emptyText
  | connectFailed
  | serviceError (status : Nat)
  | responseParseFailed
  | resultsParseFailed
deriving Repr, DecidableEq

/-- An analyzer error other than the empty-text rejection: a
service-unavailable or malformed-response failure. -/
def AnalyzeError.isTechnical : AnalyzeError → Bool
  | .emptyText => false
  | _ => true

/-- The fixed analysis returned by `analyzeResumeWithGemini` when no API key
is configured: every score 75, fixed messages, three fixed suggestions. -/
def noCredentialFallback : NormalizedResult :=
  { overallScore := some 75
    keywordsScore := some 75
    experienceScore := some 75
    skillsScore := some 75
    educationScore := some 75
    formattingScore := some 75
    feedback :=
      { keywords := "API not configured. Please configure Gemini API key for detailed analysis."
        experience := "API not configured. Please configure Gemini API key for detailed analysis."
        skills := "API not configured. Please configure Gemini API key for detailed analysis."
        education := "API not configured. Please configure Gemini API key for detailed analysis."
        formatting := "API not configured. Please configure Gemini API key for detailed analysis." }
    improvementSuggestions :=
      [ "Configure your Gemini API key for detailed resume analysis.",
        "Ensure your resume is in PDF or DOCX format.",
        "Make sure your resume contains clear sections for experience, skills, and education." ] }

/-- Embedding of `analyzeResumeWithGemini` (gemini.ts lines 118-217): empty or
whitespace-only text throws first; a missing credential returns the fixed
score-75 fallback; otherwise each failure of the external call becomes the
corresponding typed error, and a parsed result is normalised by
`fillSectionDefaults`. -/
def analyzeResumeWithGemini (apiKeyConfigured : Bool) (text : String)
    (outcome : AnalyzeOutcome) : Except AnalyzeError NormalizedResult :=
  if jsTrim text = "" then .error .emptyText
  else if !apiKeyConfigured then .ok noCredentialFallback
  else
    match outcome with
    | .networkError => .error .connectFailed
    | .httpError s => .error (.serviceError s)
    | .bodyJsonError => .error .responseParseFailed
    | .resultParseError => .error .resultsParseFailed
    | .parsed r => .ok (fillSectionDefaults r)

/-- The uploaded file as the route sees it after multer: original name and
declared MIME type (the byte buffer is consumed by the extraction
collaborator, whose outcome is passed separately). -/
structure UploadFile where
  filename : String
  fileType : String
deriving Repr, DecidableEq

/-- The `CachedAnalysis` shape the route stores and returns: provenance
metadata (`id: Date.now()`, original filename, declared MIME type,
`createdAt` ISO timestamp) spread together with the analysis fields. -/
structure StoredResult where
  id : Int
  filename : String
  fileType : String
  createdAt : String
  analysis : NormalizedResult
deriving Repr, DecidableEq

/-- The module-level `resumeCache` object: an association of hex digests to
stored results, later writes shadowing earlier ones. -/
abbrev Cache := List (String × StoredResult)

/-- Lookup `resumeCache[hash]`. -/
def cacheGet : Cache → String → Option StoredResult
  | [], _ => none
  | (k, v) :: rest, h => if k = h then some v else cacheGet rest h

/-- Assignment `resumeCache[hash] = result`. -/
def cachePut (cache : Cache) (h : String) (v : StoredResult) : Cache :=
  (h, v) :: cache

/-- An HTTP reply sent by a route handler: either
`res.status(s).json({message})` or `res.status(200).json(result)`. -/
inductive HttpResponse where
  | jsonMessage (status : Nat) (message : String)
  | jsonOk (body : StoredResult)
deriving Repr, DecidableEq

/-- The HTTP status code of a reply. -/
def HttpResponse.status : HttpResponse → Nat
  | .jsonMessage s _ => s
  | .jsonOk _ => 200

/-- The stored-result body of a 200 reply, if any. -/
def HttpResponse.stored : HttpResponse → Option StoredResult
  | .jsonMessage _ _ => none
  | .jsonOk r => some r

/-- The fallback analysis the route substitutes when
`analyzeResumeWithGemini` throws: every score 70, fixed technical-issue
messages, three fixed retry suggestions. -/
def technicalFallback : NormalizedResult :=
  { overallScore := some 70
    keywordsScore := some 70
    experienceScore := some 70
    skillsScore := some 70
    educationScore := some 70
    formattingScore := some 70
    feedback :=
      { keywords := "Unable to analyze keywords due to technical issues. Please try again later."
        experience := "Unable to analyze experience due to technical issues. Please try again later."
        skills := "Unable to analyze skills due to technical issues. Please try again later."
        education := "Unable to analyze education due to technical issues. Please try again later."
        formatting := "Unable to analyze formatting due to technical issues. Please try again later." }
    improvementSuggestions :=
      [ "Please try uploading your resume again in a few moments.",
        "Ensure your resume is in PDF or DOCX format.",
        "Check that your resume contains clear sections for experience, skills, and education." ] }

/-- The analysis fields of the `notResumeResult` the route synthesises when
the classifier answers no: every score 0, fixed not-a-resume messages, one
fixed suggestion. -/
def notResumeAnalysis : NormalizedResult :=
  { overallScore := some 0
    keywordsScore := some 0
    experienceScore := some 0
    skillsScore := some 0
    educationScore := some 0
    formattingScore := some 0
    feedback :=
      { keywords := "This document does not appear to be a resume. Please upload a valid resume (CV) for analysis."
        experience := "This document does not appear to be a resume. Please upload a valid resume (CV) for analysis."
        skills := "This document does not appear to be a resume. Please upload a valid resume (CV) for analysis."
        education := "This document does not appear to be a resume. Please upload a valid resume (CV) for analysis."
        formatting := "This document does not appear to be a resume. Please upload a valid resume (CV) for analysis." }
    improvementSuggestions :=
      [ "Please upload a resume or CV document for accurate analysis." ] }

/-- What one run of the `POST /api/resume/analyze` handler produced: the
reply, the cache after the run, and whether the run reached the
`isResumeDocument` and `analyzeResumeWithGemini` call sites (instrumentation
for the no-second-external-call properties; the source makes no such call on
the paths where these flags are false). -/
structure ProcessOutcome where
  response : HttpResponse
  cache : Cache
  classifierInvoked : Bool
  analyzerInvoked : Bool
deriving Repr, DecidableEq

/-- Embedding of the `POST /api/resume/analyze` handler (routes file lines
35-155). `hash` stands for `crypto.createHash('sha256')...digest('hex')`, a
deterministic function of the extracted text; `extraction` is the outcome of
`extractTextFromDocument`; `freshId` and `now` are the values of `Date.now()`
and `new Date().toISOString()` at this request. The classifier call sits in
the route's own `try`/`catch` that resets `isResume` to `true` on a thrown
exception, and the analyzer call sits in the `try`/`catch` that substitutes
`technicalFallback` for any thrown error. -/
def process (hash : String → String) (apiKeyConfigured : Bool)
    (file : Option UploadFile) (extraction : Except String String)
    (classifierOutcome : CallOutcome) (analyzeOutcome : AnalyzeOutcome)
    (freshId : Int) (now : String) (cache : Cache) : ProcessOutcome :=
  match file with
  | none => ⟨.jsonMessage 400 "No file uploaded", cache, false, false⟩
  | some f =>
    match extraction with
    | .error msg => ⟨.jsonMessage 400 msg, cache, false, false⟩
    | .ok text =>
      let h := hash text
      match cacheGet cache h with
      | some cached => ⟨.jsonOk cached, cache, false, false⟩
      | none =>
        let isResume :=
          match isResumeDocumentE apiKeyConfigured text classifierOutcome with
          | .ok b => b
          | .error _ => true  -- catch: if Gemini fails, assume resume
        if !isResume then
          let r : StoredResult :=
            ⟨freshId, f.filename, f.fileType, now, notResumeAnalysis⟩
          ⟨.jsonOk r, cachePut cache h r, true, false⟩
        else
          let analysis :=
            match analyzeResumeWithGemini apiKeyConfigured text analyzeOutcome with
            | .ok a => a
            | .error _ => technicalFallback  -- catch: fallback if Gemini fails
          let r : StoredResult :=
            ⟨freshId, f.filename, f.fileType, now, analysis⟩
          ⟨.jsonOk r, cachePut cache h r, true, true⟩

/-- Decimal digit value, as `parseInt` reads decimal input. -/
def decDigit? (c : Char) : Option Nat :=
  if c.isDigit then some (c.toNat - 48) else none

/-- Hexadecimal digit value, for the `0x` form `parseInt` accepts. -/
def hexDigit? (c : Char) : Option Nat :=
  if c.isDigit then some (c.toNat - 48)
  else if 'a' ≤ c ∧ c ≤ 'f' then some (c.toNat - 87)
  else if 'A' ≤ c ∧ c ≤ 'F' then some (c.toNat - 55)
  else none

/-- Value of the longest digit run at the head of `cs`; `none` when the run
is empty (which `parseInt` reports as `NaN`). -/
def parseDigitsWith (digit? : Char → Option Nat) (base : Nat)
    (cs : List Char) : Option Nat :=
  let ds := cs.takeWhile fun c => (digit? c).isSome
  if ds.isEmpty then none
  else some (ds.foldl (fun acc c => acc * base + (digit? c).getD 0) 0)

/-- JavaScript `parseInt(s)` with no radix argument: skip leading whitespace,
read an optional sign, treat a `0x`/`0X` head as hexadecimal, otherwise read
the longest leading run of decimal digits, ignoring everything after it;
`none` models `NaN`. -/
def jsParseInt (s : String) : Option Int :=
  let cs := (jsTrim s).toList
  let signed : Int × List Char :=
    match cs with
    | '-' :: r => (-1, r)
    | '+' :: r => (1, r)
    | r => (1, r)
  match signed.2 with
  | '0' :: 'x' :: r => (parseDigitsWith hexDigit? 16 r).map fun n => signed.1 * n
  | '0' :: 'X' :: r => (parseDigitsWith hexDigit? 16 r).map fun n => signed.1 * n
  | r => (parseDigitsWith decDigit? 10 r).map fun n => signed.1 * n

/-- The demo analysis the `GET /api/resume/analysis/:id` handler returns when
the storage call throws. -/
def demoAnalysis (id : Int) (now : String) : StoredResult :=
  { id := id
    filename := "sample-resume.pdf"
    fileType := "application/pdf"
    createdAt := now
    analysis :=
      { overallScore := some 78
        keywordsScore := some 75
        experienceScore := some 82
        skillsScore := some 80
        educationScore := some 85
        formattingScore := some 70
        feedback :=
          { keywords := "Your resume contains good keywords, but could benefit from more industry-specific terminology."
            experience := "Your work experience is well presented with quantified achievements."
            skills := "Your skills section is comprehensive and well organized."
            education := "Education details are clearly presented with relevant highlights."
            formatting := "The resume has a good structure but could be more ATS-friendly." }
        improvementSuggestions :=
          [ "Add more industry-specific keywords throughout your resume.",
            "Quantify more achievements with specific metrics to demonstrate impact.",
            "Ensure consistent formatting of dates and headers for better ATS readability.",
            "Tailor your resume for each application by highlighting relevant experiences.",
            "Use standard section headers that are easily recognized by ATS systems." ] }}

/-- Embedding of the `GET /api/resume/analysis/:id` handler (routes file lines
158-211). `store` is the `storage.getResumeAnalysis` collaborator: its call
either throws (`Except.error`, answered with the 200 demo payload) or
resolves to a possibly-absent record. -/
def getAnalysisHandler (store : Int → Except Unit (Option StoredResult))
    (now : String) (idParam : String) : HttpResponse :=
  match jsParseInt idParam with
  | none => .jsonMessage 400 "Invalid ID format"
  | some id =>
    match store id with
    | .error _ => .jsonOk (demoAnalysis id now)
    | .ok none => .jsonMessage 404 "Analysis not found"
    | .ok (some a) => .jsonOk a

/-- All six numeric score fields are present. -/
def NormalizedResult.scoresPresent (a : NormalizedResult) : Bool :=
  a.overallScore.isSome && a.keywordsScore.isSome && a.experienceScore.isSome
    && a.skillsScore.isSome && a.educationScore.isSome && a.formattingScore.isSome

/-- All five feedback fields are non-empty strings. -/
def NormalizedResult.feedbackNonEmpty (a : NormalizedResult) : Bool :=
  !(a.feedback.keywords == "") && !(a.feedback.experience == "")
    && !(a.feedback.skills == "") && !(a.feedback.education == "")
    && !(a.feedback.formatting == "")

/-! Helper lemmas shared by the claim theorems. -/

theorem jsOrString_of_default (x : Option String) (d : String)
    (h : x = none ∨ x = some "") : jsOrString x d = d := by
  rcases h with h | h <;> subst h <;> simp [jsOrString]

theorem jsOrString_of_present (s d : String) (h : s ≠ "") :
    jsOrString (some s) d = s := by
  simp [jsOrString, h]

theorem jsOrString_ne_empty (x : Option String) (d : String) (hd : d ≠ "") :
    jsOrString x d ≠ "" := by
  cases x with
  | none => simpa [jsOrString]
  | some s =>
    by_cases hs : s = "" <;> simp [jsOrString, hs, hd]

theorem isResumeDocumentE_eq (apiKey : Bool) (text : String) (outcome : CallOutcome) :
    isResumeDocumentE apiKey text outcome = .ok (isResumeDocument apiKey text outcome) := by
  cases apiKey <;> cases outcome <;> rfl

theorem cacheGet_cachePut (cache : Cache) (h : String) (r : StoredResult) :
    cacheGet (cachePut cache h r) h = some r := by
  simp [cacheGet, cachePut]

theorem fillSectionDefaults_feedbackNonEmpty (u : UpstreamResult) :
    (fillSectionDefaults u).feedbackNonEmpty = true := by
  simp only [NormalizedResult.feedbackNonEmpty, fillSectionDefaults,
    Bool.and_eq_true, Bool.not_eq_true', beq_eq_false_iff_ne, ne_eq]
  refine ⟨⟨⟨⟨?_, ?_⟩, ?_⟩, ?_⟩, ?_⟩ <;>
    exact jsOrString_ne_empty _ _ (by decide)

theorem fillSectionDefaults_suggestions_ne (u : UpstreamResult) :
    (fillSectionDefaults u).improvementSuggestions ≠ [] := by
  simp only [fillSectionDefaults]
  rcases u.improvementSuggestions with _ | ⟨_ | ⟨s, rest⟩⟩ <;> simp

theorem analyze_ok_invariants (apiKey : Bool) (text : String)
    (a : AnalyzeOutcome) (an : NormalizedResult)
    (h : analyzeResumeWithGemini apiKey text a = .ok an) :
    an.feedbackNonEmpty = true ∧ an.improvementSuggestions ≠ [] := by
  unfold analyzeResumeWithGemini at h
  split at h
  · exact absurd h (by simp)
  · split at h
    · cases h
      exact ⟨by decide, by decide⟩
    · cases a <;> simp at h
      subst h
      exact ⟨fillSectionDefaults_feedbackNonEmpty _, fillSectionDefaults_suggestions_ne _⟩

theorem process_hit (hash : String → String) (apiKey : Bool) (f : UploadFile)
    (text : String) (c : CallOutcome) (a : AnalyzeOutcome) (i : Int) (now : String)
    (cache : Cache) (r : StoredResult)
    (hhit : cacheGet cache (hash text) = some r) :
    process hash apiKey (some f) (.ok text) c a i now cache =
      ⟨.jsonOk r, cache, false, false⟩ := by
  simp only [process, hhit]

theorem process_miss (hash : String → String) (apiKey : Bool) (f : UploadFile)
    (text : String) (c : CallOutcome) (a : AnalyzeOutcome) (i : Int) (now : String)
    (cache : Cache) (hmiss : cacheGet cache (hash text) = none) :
    process hash apiKey (some f) (.ok text) c a i now cache =
      if isResumeDocument apiKey text c then
        (fun analysis =>
          (⟨.jsonOk ⟨i, f.filename, f.fileType, now, analysis⟩,
            cachePut cache (hash text) ⟨i, f.filename, f.fileType, now, analysis⟩,
            true, true⟩ : ProcessOutcome))
          (match analyzeResumeWithGemini apiKey text a with
            | .ok an => an
            | .error _ => technicalFallback)
      else
        ⟨.jsonOk ⟨i, f.filename, f.fileType, now, notResumeAnalysis⟩,
          cachePut cache (hash text) ⟨i, f.filename, f.fileType, now, notResumeAnalysis⟩,
          true, false⟩ := by
  simp only [process, hmiss, isResumeDocumentE_eq]
  cases hb : isResumeDocument apiKey text c <;> simp [hb]

/-- C4: `isResumeDocument` returns true whenever the external classification
call fails (network error or timeout, non-success status, unparseable
response) or no credential is configured; when the call succeeds, it returns
true if and only if the trimmed, lower-cased response text begins with
"yes" — any other content, including "no", yields false. -/
theorem isResumeDocument_spec (apiKey : Bool) (text : String) (outcome : CallOutcome) :
    (apiKey = false → isResumeDocument apiKey text outcome = true) ∧
    ((outcome = .networkError ∨ (∃ s, outcome = .httpError s) ∨ outcome = .jsonError) →
      isResumeDocument apiKey text outcome = true) ∧
    (∀ resp, apiKey = true → outcome = .ok resp →
      (isResumeDocument apiKey text outcome = true ↔
        jsStartsWith (jsToLower (jsTrim (resp.text.getD ""))) "yes" = true)) := by
  refine ⟨?_, ?_, ?_⟩
  · intro h; subst h; rfl
  · rintro (h | ⟨s, h⟩ | h) <;> subst h <;> cases apiKey <;> rfl
  · rintro resp h1 h2
    subst h1; subst h2
    simp [isResumeDocument]

/-- Witness for C4: the no-credential default, the fail-open network-error
case, and a successful "YES" reply, each at concrete inputs. -/
theorem isResumeDocument_spec_witness :
    isResumeDocument false "some text" (.ok ⟨some "no"⟩) = true ∧
    isResumeDocument true "some text" .networkError = true ∧
    isResumeDocument true "some text" (.ok ⟨some "  YES, a resume"⟩) = true :=
  ⟨(isResumeDocument_spec false "some text" (.ok ⟨some "no"⟩)).1 rfl,
   (isResumeDocument_spec true "some text" .networkError).2.1 (Or.inl rfl),
   ((isResumeDocument_spec true "some text" (.ok ⟨some "  YES, a resume"⟩)).2.2
     ⟨some "  YES, a resume"⟩ rfl rfl).2 (by decide)⟩

/-- C5: normalization replaces each missing or empty feedback field with
"No feedback provided." and an empty or absent suggestions sequence with
["No suggestions provided."], while all six numeric score fields (whatever
their value, in range or not) and every non-empty feedback field pass through
unmodified. -/
theorem fillSectionDefaults_spec (u : UpstreamResult) :
    ((fillSectionDefaults u).overallScore = u.overallScore ∧
     (fillSectionDefaults u).keywordsScore = u.keywordsScore ∧
     (fillSectionDefaults u).experienceScore = u.experienceScore ∧
     (fillSectionDefaults u).skillsScore = u.skillsScore ∧
     (fillSectionDefaults u).educationScore = u.educationScore ∧
     (fillSectionDefaults u).formattingScore = u.formattingScore) ∧
    ((u.feedback.bind (·.keywords) = none ∨ u.feedback.bind (·.keywords) = some "" →
        (fillSectionDefaults u).feedback.keywords = "No feedback provided.") ∧
     (∀ s, u.feedback.bind (·.keywords) = some s → s ≠ "" →
        (fillSectionDefaults u).feedback.keywords = s)) ∧
    ((u.feedback.bind (·.experience) = none ∨ u.feedback.bind (·.experience) = some "" →
        (fillSectionDefaults u).feedback.experience = "No feedback provided.") ∧
     (∀ s, u.feedback.bind (·.experience) = some s → s ≠ "" →
        (fillSectionDefaults u).feedback.experience = s)) ∧
    ((u.feedback.bind (·.skills) = none ∨ u.feedback.bind (·.skills) = some "" →
        (fillSectionDefaults u).feedback.skills = "No feedback provided.") ∧
     (∀ s, u.feedback.bind (·.skills) = some s → s ≠ "" →
        (fillSectionDefaults u).feedback.skills = s)) ∧
    ((u.feedback.bind (·.education) = none ∨ u.feedback.bind (·.education) = some "" →
        (fillSectionDefaults u).feedback.education = "No feedback provided.") ∧
     (∀ s, u.feedback.bind (·.education) = some s → s ≠ "" →
        (fillSectionDefaults u).feedback.education = s)) ∧
    ((u.feedback.bind (·.formatting) = none ∨ u.feedback.bind (·.formatting) = some "" →
        (fillSectionDefaults u).feedback.formatting = "No feedback provided.") ∧
     (∀ s, u.feedback.bind (·.formatting) = some s → s ≠ "" →
        (fillSectionDefaults u).feedback.formatting = s)) ∧
    ((u.improvementSuggestions = none ∨ u.improvementSuggestions = some [] →
        (fillSectionDefaults u).improvementSuggestions = ["No suggestions provided."]) ∧
     (∀ l, u.improvementSuggestions = some l → l ≠ [] →
        (fillSectionDefaults u).improvementSuggestions = l)) := by
  refine ⟨⟨rfl, rfl, rfl, rfl, rfl, rfl⟩, ?_, ?_, ?_, ?_, ?_, ?_⟩
  · exact ⟨fun h => jsOrString_of_default _ _ h,
      fun s hs hne => by
        show jsOrString _ _ = s
        rw [hs]; exact jsOrString_of_present s _ hne⟩
  · exact ⟨fun h => jsOrString_of_default _ _ h,
      fun s hs hne => by
        show jsOrString _ _ = s
        rw [hs]; exact jsOrString_of_present s _ hne⟩
  · exact ⟨fun h => jsOrString_of_default _ _ h,
      fun s hs hne => by
        show jsOrString _ _ = s
        rw [hs]; exact jsOrString_of_present s _ hne⟩
  · exact ⟨fun h => jsOrString_of_default _ _ h,
      fun s hs hne => by
        show jsOrString _ _ = s
        rw [hs]; exact jsOrString_of_present s _ hne⟩
  · exact ⟨fun h => jsOrString_of_default _ _ h,
      fun s hs hne => by
        show jsOrString _ _ = s
        rw [hs]; exact jsOrString_of_present s _ hne⟩
  · constructor
    · rintro (h | h) <;> simp only [fillSectionDefaults, h]
    · rintro l hl hne
      simp only [fillSectionDefaults, hl]
      cases l with
      | nil => exact absurd rfl hne
      | cons s rest => rfl

/-- Witness for C5: an upstream result with a missing `education` field, an
out-of-range `overallScore` of 150, a present `keywords` comment and a
one-element suggestion list is normalised exactly as claimed. -/
theorem fillSectionDefaults_spec_witness :
    (fillSectionDefaults ⟨some 150, some 80, some 80, some 80, some 80, some 80,
        some ⟨some "good keywords", some "solid", some "broad", none, some "clean"⟩,
        some ["Add metrics."]⟩).feedback.education = "No feedback provided." ∧
    (fillSectionDefaults ⟨some 150, some 80, some 80, some 80, some 80, some 80,
        some ⟨some "good keywords", some "solid", some "broad", none, some "clean"⟩,
        some ["Add metrics."]⟩).overallScore = some 150 ∧
    (fillSectionDefaults ⟨some 150, some 80, some 80, some 80, some 80, some 80,
        some ⟨some "good keywords", some "solid", some "broad", none, some "clean"⟩,
        some ["Add metrics."]⟩).feedback.keywords = "good keywords" ∧
    (fillSectionDefaults ⟨some 150, some 80, some 80, some 80, some 80, some 80,
        some ⟨some "good keywords", some "solid", some "broad", none, some "clean"⟩,
        some ["Add metrics."]⟩).improvementSuggestions = ["Add metrics."] := by
  have h := fillSectionDefaults_spec ⟨some 150, some 80, some 80, some 80, some 80, some 80,
    some ⟨some "good keywords", some "solid", some "broad", none, some "clean"⟩,
    some ["Add metrics."]⟩
  exact ⟨h.2.2.2.2.1.1 (Or.inl rfl), h.1.1,
    h.2.1.2 "good keywords" rfl (by decide),
    h.2.2.2.2.2.2.2 ["Add metrics."] rfl (by decide)⟩

/-- C9: `isResumeDocument` never throws: for every credential state and every
call outcome the exception-explicit embedding `isResumeDocumentE` is
`Except.ok`, equal to the boolean `isResumeDocument` computes, so the
orchestrator's catch branch that resets `isResume` to true on a classifier
exception can never fire. -/
theorem isResumeDocument_never_throws (apiKey : Bool) (text : String)
    (outcome : CallOutcome) :
    isResumeDocumentE apiKey text outcome = .ok (isResumeDocument apiKey text outcome) ∧
    (match isResumeDocumentE apiKey text outcome with
      | .ok b => b
      | .error _ => true) = isResumeDocument apiKey text outcome := by
  refine ⟨isResumeDocumentE_eq apiKey text outcome, ?_⟩
  rw [isResumeDocumentE_eq]

/-- C1 counterexample: an upload with non-empty extracted text whose analysis
call succeeds but whose parsed upstream JSON is the empty object is returned
to the caller with all six numeric score fields absent — the claimed
invariant that all six scores are always present fails on the success path,
because `fillSectionDefaults` only defaults the feedback and suggestion
fields. -/
theorem success_path_can_drop_scores :
    ((process id true (some ⟨"resume.pdf", "application/pdf"⟩)
        (.ok "John Doe, software engineer")
        (.ok ⟨some "yes"⟩) (.parsed ⟨none, none, none, none, none, none, none, none⟩)
        1 "2024-01-01T00:00:00.000Z" []).response.stored.map
      fun r => r.analysis.scoresPresent) = some false := by decide

/-- C1 amended: for every upload with non-empty extracted text and a cache
miss, the body `process` returns is a 200 result whose five feedback fields
are non-empty strings and whose suggestion list is non-empty, on every path;
the six numeric score fields, however, are only guaranteed present on the
NotResume, no-credential and technical-fallback paths — on the success path
they are whatever the parsed upstream response carried and may be absent. -/
theorem process_feedback_suggestions_invariant
    (hash : String → String) (apiKey : Bool) (f : UploadFile) (text : String)
    (c : CallOutcome) (a : AnalyzeOutcome) (i : Int) (now : String) (cache : Cache)
    (hne : jsTrim text ≠ "")
    (hmiss : cacheGet cache (hash text) = none) :
    ∃ r, (process hash apiKey (some f) (.ok text) c a i now cache).response = .jsonOk r ∧
      r.analysis.feedbackNonEmpty = true ∧
      r.analysis.improvementSuggestions ≠ [] := by
  rw [process_miss hash apiKey f text c a i now cache hmiss]
  cases hb : isResumeDocument apiKey text c
  · exact ⟨_, rfl,
      show notResumeAnalysis.feedbackNonEmpty = true by decide,
      show notResumeAnalysis.improvementSuggestions ≠ [] by decide⟩
  · cases ha : analyzeResumeWithGemini apiKey text a with
    | error e =>
      exact ⟨_, rfl,
        show technicalFallback.feedbackNonEmpty = true by decide,
        show technicalFallback.improvementSuggestions ≠ [] by decide⟩
    | ok an =>
      obtain ⟨h1, h2⟩ := analyze_ok_invariants apiKey text a an ha
      exact ⟨_, rfl, h1, h2⟩

/-- Witness for C1 amended: a concrete no-credential run on non-empty text. -/
theorem process_feedback_suggestions_invariant_witness :
    ∃ r, (process id false (some ⟨"cv.pdf", "application/pdf"⟩)
        (.ok "Jane Doe, data analyst") (.ok ⟨some "yes"⟩)
        (.parsed ⟨none, none, none, none, none, none, none, none⟩)
        3 "2024-02-02T00:00:00.000Z" []).response = .jsonOk r ∧
      r.analysis.feedbackNonEmpty = true ∧
      r.analysis.improvementSuggestions ≠ [] :=
  process_feedback_suggestions_invariant id false ⟨"cv.pdf", "application/pdf"⟩
    "Jane Doe, data analyst" (.ok ⟨some "yes"⟩)
    (.parsed ⟨none, none, none, none, none, none, none, none⟩)
    3 "2024-02-02T00:00:00.000Z" [] (by decide) (by decide)

/-- C2 counterexample: an upload whose extracted text is all whitespace is not
rejected: the classifier call site is still reached (an external call when a
credential is configured), the analyzer's empty-text error is swallowed by
the catch-all, and the request ends in HTTP 200 with a result stored in the
cache under the upload's fingerprint. -/
theorem empty_text_returns_200_and_caches :
    (process id true (some ⟨"blank.pdf", "application/pdf"⟩) (.ok "   ")
        (.ok ⟨some "yes"⟩) (.parsed ⟨none, none, none, none, none, none, none, none⟩)
        7 "2024-03-03T00:00:00.000Z" []).response.status = 200 ∧
    (cacheGet (process id true (some ⟨"blank.pdf", "application/pdf"⟩) (.ok "   ")
        (.ok ⟨some "yes"⟩) (.parsed ⟨none, none, none, none, none, none, none, none⟩)
        7 "2024-03-03T00:00:00.000Z" []).cache (id "   ")).isSome = true ∧
    (process id true (some ⟨"blank.pdf", "application/pdf"⟩) (.ok "   ")
        (.ok ⟨some "yes"⟩) (.parsed ⟨none, none, none, none, none, none, none, none⟩)
        7 "2024-03-03T00:00:00.000Z" []).classifierInvoked = true := by decide

/-- C2 amended: for every upload whose extracted text is empty or all
whitespace (on a cache miss), `process` does not reject the upload: the
classifier still runs first, the analyzer's empty-text error is caught by the
orchestrator's fallback handler, and the request returns HTTP 200 with a
result that is stored in the cache — the score-70 technical fallback whenever
the document was (possibly by fail-open default) classified as a resume. -/
theorem process_empty_text_technical_fallback
    (hash : String → String) (apiKey : Bool) (f : UploadFile) (text : String)
    (c : CallOutcome) (a : AnalyzeOutcome) (i : Int) (now : String) (cache : Cache)
    (hempty : jsTrim text = "")
    (hmiss : cacheGet cache (hash text) = none) :
    ∃ r, (process hash apiKey (some f) (.ok text) c a i now cache).response = .jsonOk r ∧
      (process hash apiKey (some f) (.ok text) c a i now cache).cache =
        cachePut cache (hash text) r ∧
      (process hash apiKey (some f) (.ok text) c a i now cache).classifierInvoked = true ∧
      (isResumeDocument apiKey text c = true → r.analysis = technicalFallback) := by
  rw [process_miss hash apiKey f text c a i now cache hmiss]
  cases hb : isResumeDocument apiKey text c
  · exact ⟨_, rfl, rfl, rfl, fun h => absurd h (by simp)⟩
  · have ha : analyzeResumeWithGemini apiKey text a = .error .emptyText := by
      unfold analyzeResumeWithGemini
      rw [if_pos hempty]
    rw [ha]
    exact ⟨_, rfl, rfl, rfl, fun _ => rfl⟩

/-- Witness for C2 amended: a concrete whitespace-only upload with a
configured credential and a classifier that answers yes. -/
theorem process_empty_text_technical_fallback_witness :
    ∃ r, (process id true (some ⟨"ws.docx",
        "application/vnd.openxmlformats-officedocument.wordprocessingml.document"⟩)
        (.ok " \t ") (.ok ⟨some "yes"⟩) (.parsed ⟨none, none, none, none, none, none, none, none⟩)
        9 "2024-04-04T00:00:00.000Z" []).response = .jsonOk r ∧
      (process id true (some ⟨"ws.docx",
        "application/vnd.openxmlformats-officedocument.wordprocessingml.document"⟩)
        (.ok " \t ") (.ok ⟨some "yes"⟩) (.parsed ⟨none, none, none, none, none, none, none, none⟩)
        9 "2024-04-04T00:00:00.000Z" []).cache = cachePut [] (id " \t ") r ∧
      (process id true (some ⟨"ws.docx",
        "application/vnd.openxmlformats-officedocument.wordprocessingml.document"⟩)
        (.ok " \t ") (.ok ⟨some "yes"⟩) (.parsed ⟨none, none, none, none, none, none, none, none⟩)
        9 "2024-04-04T00:00:00.000Z" []).classifierInvoked = true ∧
      (isResumeDocument true " \t " (.ok ⟨some "yes"⟩) = true →
        r.analysis = technicalFallback) :=
  process_empty_text_technical_fallback id true
    ⟨"ws.docx", "application/vnd.openxmlformats-officedocument.wordprocessingml.document"⟩
    " \t " (.ok ⟨some "yes"⟩) (.parsed ⟨none, none, none, none, none, none, none, none⟩)
    9 "2024-04-04T00:00:00.000Z" [] (by decide) (by decide)

/-- C3: for every upload classified as a resume whose analyzer call fails with
a service-unavailable or malformed-response error while a credential is
present, the orchestrator answers HTTP 200 with the fixed fallback whose six
scores all equal 70, and stores that fallback in the cache under the upload's
fingerprint. -/
theorem analyzer_failure_technical_fallback_cached
    (hash : String → String) (f : UploadFile) (text : String)
    (c : CallOutcome) (a : AnalyzeOutcome) (i : Int) (now : String) (cache : Cache)
    (e : AnalyzeError)
    (hmiss : cacheGet cache (hash text) = none)
    (hclass : isResumeDocument true text c = true)
    (herr : analyzeResumeWithGemini true text a = .error e)
    (htech : e.isTechnical = true) :
    (process hash true (some f) (.ok text) c a i now cache).response.status = 200 ∧
    (process hash true (some f) (.ok text) c a i now cache).response.stored =
      some ⟨i, f.filename, f.fileType, now, technicalFallback⟩ ∧
    cacheGet (process hash true (some f) (.ok text) c a i now cache).cache (hash text) =
      some ⟨i, f.filename, f.fileType, now, technicalFallback⟩ ∧
    technicalFallback.overallScore = some 70 ∧
    technicalFallback.keywordsScore = some 70 ∧
    technicalFallback.experienceScore = some 70 ∧
    technicalFallback.skillsScore = some 70 ∧
    technicalFallback.educationScore = some 70 ∧
    technicalFallback.formattingScore = some 70 := by
  rw [process_miss hash true f text c a i now cache hmiss]
  rw [hclass, if_pos rfl, herr]
  exact ⟨rfl, rfl, cacheGet_cachePut _ _ _, rfl, rfl, rfl, rfl, rfl, rfl⟩

/-- Witness for C3: a resume-classified upload whose analysis fetch throws a
network error. -/
theorem analyzer_failure_technical_fallback_cached_witness :
    (process id true (some ⟨"cv2.pdf", "application/pdf"⟩)
        (.ok "John Doe, engineer") (.ok ⟨some "yes"⟩) .networkError
        11 "2024-05-05T00:00:00.000Z" []).response.status = 200 ∧
    (process id true (some ⟨"cv2.pdf", "application/pdf"⟩)
        (.ok "John Doe, engineer") (.ok ⟨some "yes"⟩) .networkError
        11 "2024-05-05T00:00:00.000Z" []).response.stored =
      some ⟨11, "cv2.pdf", "application/pdf", "2024-05-05T00:00:00.000Z", technicalFallback⟩ ∧
    cacheGet (process id true (some ⟨"cv2.pdf", "application/pdf"⟩)
        (.ok "John Doe, engineer") (.ok ⟨some "yes"⟩) .networkError
        11 "2024-05-05T00:00:00.000Z" []).cache (id "John Doe, engineer") =
      some ⟨11, "cv2.pdf", "application/pdf", "2024-05-05T00:00:00.000Z", technicalFallback⟩ ∧
    technicalFallback.overallScore = some 70 ∧
    technicalFallback.keywordsScore = some 70 ∧
    technicalFallback.experienceScore = some 70 ∧
    technicalFallback.skillsScore = some 70 ∧
    technicalFallback.educationScore = some 70 ∧
    technicalFallback.formattingScore = some 70 :=
  analyzer_failure_technical_fallback_cached id ⟨"cv2.pdf", "application/pdf"⟩
    "John Doe, engineer" (.ok ⟨some "yes"⟩) .networkError
    11 "2024-05-05T00:00:00.000Z" [] .connectFailed
    (by decide) (by decide) (by rfl) (by decide)

/-- C6: when the classifier call succeeds and the reply text normalises to
exactly "no" (any letter case), `process` synthesises a NotResume result with
all six scores 0, every feedback field the fixed not-a-resume message and the
single upload-a-valid-resume suggestion, stores exactly that result under the
fingerprint, and a subsequent call with the same text gets it back verbatim
from the cache. -/
theorem classifier_no_yields_not_resume_cached
    (hash : String → String) (f : UploadFile) (text ans : String)
    (a : AnalyzeOutcome) (i : Int) (now : String) (cache : Cache)
    (apiKey2 : Bool) (f2 : UploadFile) (c2 : CallOutcome) (a2 : AnalyzeOutcome)
    (i2 : Int) (now2 : String)
    (hmiss : cacheGet cache (hash text) = none)
    (hans : jsToLower (jsTrim ans) = "no") :
    ∃ r, process hash true (some f) (.ok text) (.ok ⟨some ans⟩) a i now cache =
        ⟨.jsonOk r, cachePut cache (hash text) r, true, false⟩ ∧
      r.analysis = notResumeAnalysis ∧
      (process hash apiKey2 (some f2) (.ok text) c2 a2 i2 now2
          (cachePut cache (hash text) r)).response = .jsonOk r ∧
      notResumeAnalysis.overallScore = some 0 ∧
      notResumeAnalysis.keywordsScore = some 0 ∧
      notResumeAnalysis.experienceScore = some 0 ∧
      notResumeAnalysis.skillsScore = some 0 ∧
      notResumeAnalysis.educationScore = some 0 ∧
      notResumeAnalysis.formattingScore = some 0 ∧
      notResumeAnalysis.improvementSuggestions =
        ["Please upload a resume or CV document for accurate analysis."] := by
  have hclass : isResumeDocument true text (.ok ⟨some ans⟩) = false := by
    show jsStartsWith (jsToLower (jsTrim ans)) "yes" = false
    rw [hans]
    decide
  refine ⟨⟨i, f.filename, f.fileType, now, notResumeAnalysis⟩, ?_, rfl, ?_,
    rfl, rfl, rfl, rfl, rfl, rfl, rfl⟩
  · rw [process_miss hash true f text (.ok ⟨some ans⟩) a i now cache hmiss, hclass]
    rfl
  · rw [process_hit hash apiKey2 f2 text c2 a2 i2 now2 _ _ (cacheGet_cachePut _ _ _)]

/-- Witness for C6: a classifier reply of " No " on a concrete upload. -/
theorem classifier_no_yields_not_resume_cached_witness :
    ∃ r, process id true (some ⟨"essay.pdf", "application/pdf"⟩)
        (.ok "An essay about birds") (.ok ⟨some " No "⟩) .networkError
        21 "2024-06-06T00:00:00.000Z" [] =
        ⟨.jsonOk r, cachePut [] (id "An essay about birds") r, true, false⟩ ∧
      r.analysis = notResumeAnalysis ∧
      (process id false (some ⟨"essay-copy.pdf", "application/pdf"⟩)
          (.ok "An essay about birds") .jsonError .bodyJsonError 22 "2024-06-07T00:00:00.000Z"
          (cachePut [] (id "An essay about birds") r)).response = .jsonOk r ∧
      notResumeAnalysis.overallScore = some 0 ∧
      notResumeAnalysis.keywordsScore = some 0 ∧
      notResumeAnalysis.experienceScore = some 0 ∧
      notResumeAnalysis.skillsScore = some 0 ∧
      notResumeAnalysis.educationScore = some 0 ∧
      notResumeAnalysis.formattingScore = some 0 ∧
      notResumeAnalysis.improvementSuggestions =
        ["Please upload a resume or CV document for accurate analysis."] :=
  classifier_no_yields_not_resume_cached id ⟨"essay.pdf", "application/pdf"⟩
    "An essay about birds" " No " .networkError 21 "2024-06-06T00:00:00.000Z" []
    false ⟨"essay-copy.pdf", "application/pdf"⟩ .jsonError .bodyJsonError
    22 "2024-06-07T00:00:00.000Z" (by decide) (by decide)

/-- C7: after a first call on a cache miss has cached its result, a second
call with byte-identical extracted text (hence the same fingerprint) returns
exactly the cached result, leaves the cache unchanged, and reaches neither
the classifier nor the analyzer call site, whatever the second call's
credential state and service outcomes are. -/
theorem process_second_call_uses_cache
    (hash : String → String) (apiKey : Bool) (f : UploadFile) (text : String)
    (c : CallOutcome) (a : AnalyzeOutcome) (i : Int) (now : String) (cache : Cache)
    (apiKey2 : Bool) (c2 : CallOutcome) (a2 : AnalyzeOutcome) (i2 : Int) (now2 : String)
    (hmiss : cacheGet cache (hash text) = none) :
    ∃ r, (process hash apiKey (some f) (.ok text) c a i now cache).response = .jsonOk r ∧
      process hash apiKey2 (some f) (.ok text) c2 a2 i2 now2
          (process hash apiKey (some f) (.ok text) c a i now cache).cache =
        ⟨.jsonOk r, (process hash apiKey (some f) (.ok text) c a i now cache).cache,
          false, false⟩ := by
  rw [process_miss hash apiKey f text c a i now cache hmiss]
  cases hb : isResumeDocument apiKey text c
  · exact ⟨_, rfl, process_hit _ _ _ _ _ _ _ _ _ _ (cacheGet_cachePut _ _ _)⟩
  · exact ⟨_, rfl, process_hit _ _ _ _ _ _ _ _ _ _ (cacheGet_cachePut _ _ _)⟩

/-- Witness for C7: a concrete first call followed by a second call whose
service outcomes differ in every way. -/
theorem process_second_call_uses_cache_witness :
    ∃ r, (process id true (some ⟨"cv3.pdf", "application/pdf"⟩)
        (.ok "Alex Roe, product manager") (.ok ⟨some "yes"⟩)
        (.parsed ⟨some 81, some 80, some 82, some 83, some 84, some 85,
          some ⟨some "a", some "b", some "c", some "d", some "e"⟩,
          some ["Add a summary."]⟩)
        31 "2024-07-07T00:00:00.000Z" []).response = .jsonOk r ∧
      process id false (some ⟨"cv3.pdf", "application/pdf"⟩)
          (.ok "Alex Roe, product manager") .networkError (.httpError 500)
          32 "2024-07-08T00:00:00.000Z"
          (process id true (some ⟨"cv3.pdf", "application/pdf"⟩)
            (.ok "Alex Roe, product manager") (.ok ⟨some "yes"⟩)
            (.parsed ⟨some 81, some 80, some 82, some 83, some 84, some 85,
              some ⟨some "a", some "b", some "c", some "d", some "e"⟩,
              some ["Add a summary."]⟩)
            31 "2024-07-07T00:00:00.000Z" []).cache =
        ⟨.jsonOk r, (process id true (some ⟨"cv3.pdf", "application/pdf"⟩)
            (.ok "Alex Roe, product manager") (.ok ⟨some "yes"⟩)
            (.parsed ⟨some 81, some 80, some 82, some 83, some 84, some 85,
              some ⟨some "a", some "b", some "c", some "d", some "e"⟩,
              some ["Add a summary."]⟩)
            31 "2024-07-07T00:00:00.000Z" []).cache, false, false⟩ :=
  process_second_call_uses_cache id true ⟨"cv3.pdf", "application/pdf"⟩
    "Alex Roe, product manager" (.ok ⟨some "yes"⟩)
    (.parsed ⟨some 81, some 80, some 82, some 83, some 84, some 85,
      some ⟨some "a", some "b", some "c", some "d", some "e"⟩,
      some ["Add a summary."]⟩)
    31 "2024-07-07T00:00:00.000Z" [] false .networkError (.httpError 500)
    32 "2024-07-08T00:00:00.000Z" (by decide)

/-- C10: when two uploads with different filenames or declared MIME types
produce identical extracted text, the second `process` call is served from
the cache and returns the provenance metadata (id, filename, fileType,
createdAt) recorded for the first upload — not fresh metadata for the second
upload. -/
theorem identical_text_reuses_first_provenance
    (hash : String → String) (apiKey : Bool) (f1 f2 : UploadFile) (text : String)
    (c : CallOutcome) (a : AnalyzeOutcome) (i1 : Int) (now1 : String) (cache : Cache)
    (apiKey2 : Bool) (c2 : CallOutcome) (a2 : AnalyzeOutcome) (i2 : Int) (now2 : String)
    (hmiss : cacheGet cache (hash text) = none)
    (hdiff : f1.filename ≠ f2.filename ∨ f1.fileType ≠ f2.fileType) :
    ∃ r, (process hash apiKey (some f1) (.ok text) c a i1 now1 cache).response = .jsonOk r ∧
      r.id = i1 ∧ r.filename = f1.filename ∧ r.fileType = f1.fileType ∧
      r.createdAt = now1 ∧
      (process hash apiKey2 (some f2) (.ok text) c2 a2 i2 now2
          (process hash apiKey (some f1) (.ok text) c a i1 now1 cache).cache).response =
        .jsonOk r ∧
      (r.filename ≠ f2.filename ∨ r.fileType ≠ f2.fileType) := by
  rw [process_miss hash apiKey f1 text c a i1 now1 cache hmiss]
  cases hb : isResumeDocument apiKey text c
  · refine ⟨_, rfl, rfl, rfl, rfl, rfl, ?_, hdiff⟩
    exact congrArg ProcessOutcome.response
      (process_hit hash apiKey2 f2 text c2 a2 i2 now2 _ _ (cacheGet_cachePut _ _ _))
  · refine ⟨_, rfl, rfl, rfl, rfl, rfl, ?_, hdiff⟩
    exact congrArg ProcessOutcome.response
      (process_hit hash apiKey2 f2 text c2 a2 i2 now2 _ _ (cacheGet_cachePut _ _ _))

/-- Witness for C10: the same extracted text uploaded once as a PDF and once
under a different filename. -/
theorem identical_text_reuses_first_provenance_witness :
    ∃ r, (process id true (some ⟨"first.pdf", "application/pdf"⟩)
        (.ok "Sam Lee, designer") (.ok ⟨some "yes"⟩) .networkError
        41 "2024-08-08T00:00:00.000Z" []).response = .jsonOk r ∧
      r.id = 41 ∧ r.filename = "first.pdf" ∧ r.fileType = "application/pdf" ∧
      r.createdAt = "2024-08-08T00:00:00.000Z" ∧
      (process id true (some ⟨"second.docx",
          "application/vnd.openxmlformats-officedocument.wordprocessingml.document"⟩)
          (.ok "Sam Lee, designer") (.ok ⟨some "yes"⟩) .networkError
          42 "2024-08-09T00:00:00.000Z"
          (process id true (some ⟨"first.pdf", "application/pdf"⟩)
            (.ok "Sam Lee, designer") (.ok ⟨some "yes"⟩) .networkError
            41 "2024-08-08T00:00:00.000Z" []).cache).response = .jsonOk r ∧
      (r.filename ≠ "second.docx" ∨ r.fileType ≠
        "application/vnd.openxmlformats-officedocument.wordprocessingml.document") :=
  identical_text_reuses_first_provenance id true
    ⟨"first.pdf", "application/pdf"⟩
    ⟨"second.docx", "application/vnd.openxmlformats-officedocument.wordprocessingml.document"⟩
    "Sam Lee, designer" (.ok ⟨some "yes"⟩) .networkError
    41 "2024-08-08T00:00:00.000Z" [] true (.ok ⟨some "yes"⟩) .networkError
    42 "2024-08-09T00:00:00.000Z" (by decide) (Or.inl (by decide))

/-- C8 counterexample: the id string "12abc" is not numeric, yet the handler
does not answer 400: JavaScript `parseInt` reads the leading "12" and the
request proceeds to a lookup of id 12, here answering 404. -/
theorem nonnumeric_id_without_400 :
    ("12abc".toList.all Char.isDigit) = false ∧
    (getAnalysisHandler (fun _ => .ok none) "2024-09-09T00:00:00.000Z" "12abc").status = 404 := by
  decide

/-- C8 amended: an id whose `parseInt` yields NaN (no parseable leading
integer) is answered 400; an id that parses to a leading integer n — even
when followed by trailing junk — is looked up as n: a successful store lookup
finding nothing is answered 404, and a successful lookup finding a record is
answered 200 with the stored shape. (A store lookup that throws is instead
answered 200 with a fixed demo payload.) -/
theorem getAnalysisHandler_status_spec
    (store : Int → Except Unit (Option StoredResult)) (now : String) (idParam : String) :
    (jsParseInt idParam = none →
      getAnalysisHandler store now idParam = .jsonMessage 400 "Invalid ID format") ∧
    (∀ n, jsParseInt idParam = some n → store n = .ok none →
      getAnalysisHandler store now idParam = .jsonMessage 404 "Analysis not found") ∧
    (∀ n rec, jsParseInt idParam = some n → store n = .ok (some rec) →
      getAnalysisHandler store now idParam = .jsonOk rec) := by
  refine ⟨?_, ?_, ?_⟩
  · intro h
    simp [getAnalysisHandler, h]
  · intro n hn hs
    simp [getAnalysisHandler, hn, hs]
  · intro n rec hn hs
    simp [getAnalysisHandler, hn, hs]

/-- Witness for C8 amended: the three reply shapes at concrete ids and store
contents. -/
theorem getAnalysisHandler_status_spec_witness :
    getAnalysisHandler (fun _ => .ok none) "t" "abc" =
      .jsonMessage 400 "Invalid ID format" ∧
    getAnalysisHandler (fun _ => .ok none) "t" "5" =
      .jsonMessage 404 "Analysis not found" ∧
    getAnalysisHandler (fun _ => .ok (some (demoAnalysis 5 "t"))) "t" "5" =
      .jsonOk (demoAnalysis 5 "t") :=
  ⟨(getAnalysisHandler_status_spec (fun _ => .ok none) "t" "abc").1 (by decide),
   (getAnalysisHandler_status_spec (fun _ => .ok none) "t" "5").2.1 5 (by decide) rfl,
   (getAnalysisHandler_status_spec (fun _ => .ok (some (demoAnalysis 5 "t"))) "t" "5").2.2
     5 (demoAnalysis 5 "t") (by decide) rfl⟩

end HireIndex
